import Mathlib

/-!
Verification development for `light_runner.py`.

The Python source is shallowly embedded: the module-level flags
(`stop_event`, `heartbeat_event`) become a `Flags` record, the heartbeat
loop of `main` (src/light_runner.py:489-518) becomes a recursive function
over a list of wake events (each element is one return of `signal.pause()`
resp. `heartbeat_event.wait(interval)` together with the signals delivered
while blocked), and the `AudioPlayer` class becomes a record with explicit
environment records standing for the host facts the code queries
(`shutil.which`, pygame availability, whether each external call raises).
-/

namespace LightRunner

/-- The two module-level `threading.Event` flags of light_runner.py
(lines 35-36): `stop_event` and `heartbeat_event`. -/
structure Flags where
  stop_event : Bool
  heartbeat_event : Bool
deriving DecidableEq

/-- `sigterm_handler` (lines 39-41): sets `stop_event`, then sets
`heartbeat_event` (force-waking a blocked `Event.wait`). -/
def sigterm_handler (f : Flags) : Flags :=
  { f with stop_event := true, heartbeat_event := true }

/-- `alarm_handler` (lines 44-45): sets `heartbeat_event` only. -/
def alarm_handler (f : Flags) : Flags :=
  { f with heartbeat_event := true }

/-- The signals the program installs handlers for. -/
inductive Sig where
  | sigint
  | sigterm
  | sigalrm
deriving DecidableEq

/-- The handler table installed by `main` (lines 425-428 bind SIGINT and
SIGTERM both to `sigterm_handler`; line 492 binds SIGALRM to
`alarm_handler` in POSIX mode). -/
def installedHandler : Sig → Flags → Flags
  | Sig.sigint => sigterm_handler
  | Sig.sigterm => sigterm_handler
  | Sig.sigalrm => alarm_handler

/-- Loop state of the heartbeat loop: the two flags plus the local
`heartbeat_count` (line 489). -/
structure LoopState where
  flags : Flags
  heartbeat_count : Nat
deriving DecidableEq

/-- One wake of `signal.pause()` in the POSIX mode: either SIGALRM from
the interval timer fired, or a termination signal (SIGINT/SIGTERM) was
delivered. -/
inductive PosixWake where
  | alarm
  | term
deriving DecidableEq

/-- One wake of `heartbeat_event.wait(args.interval)` in the fallback
mode: either the timeout expired, or a termination signal set the events. -/
inductive FallbackWake where
  | timeout
  | term
deriving DecidableEq

/-- Effect on the flags of the signal delivery that ended one
`signal.pause()` call. -/
def posixApply : PosixWake → Flags → Flags
  | PosixWake.alarm => alarm_handler
  | PosixWake.term => sigterm_handler

/-- Effect on the flags of whatever ended one `heartbeat_event.wait`
call (a timeout changes nothing; a termination signal ran
`sigterm_handler`). -/
def fallbackApply : FallbackWake → Flags → Flags
  | FallbackWake.timeout => fun f => f
  | FallbackWake.term => sigterm_handler

/-- Result of one loop iteration: successor state, the heartbeat counts
printed during the iteration, and whether the iteration executed `break`. -/
structure IterOut where
  state : LoopState
  out : List Nat
  brk : Bool
deriving DecidableEq

/-- Result of running the loop over a list of wake events: final state,
all printed heartbeat counts, and whether the loop terminated (rather
than still blocking, waiting for further wakes). -/
structure RunOut where
  state : LoopState
  out : List Nat
  done : Bool
deriving DecidableEq

/-- Body of one POSIX-mode iteration after `signal.pause()` returns
(lines 495-505): re-check `stop_event`, else if `heartbeat_event` is set,
clear it, increment `heartbeat_count`, print unless silent, and break
when `args.count > 0 and heartbeat_count >= args.count`. -/
def posixIter (cnt : Nat) (silent : Bool) (s : LoopState) (w : PosixWake) : IterOut :=
  let f := posixApply w s.flags
  if f.stop_event then ⟨⟨f, s.heartbeat_count⟩, [], true⟩
  else if f.heartbeat_event then
    let n := s.heartbeat_count + 1
    ⟨⟨{ f with heartbeat_event := false }, n⟩,
      (if silent then [] else [n]),
      decide (0 < cnt ∧ cnt ≤ n)⟩
  else ⟨⟨f, s.heartbeat_count⟩, [], false⟩

/-- The POSIX-mode `while not stop_event.is_set()` loop (lines 494-505),
run over a list of wake events used as fuel. -/
def posixRun (cnt : Nat) (silent : Bool) : LoopState → List PosixWake → RunOut
  | s, [] => ⟨s, [], false⟩
  | s, w :: ws =>
    if s.flags.stop_event then ⟨s, [], true⟩
    else
      let r := posixIter cnt silent s w
      if r.brk then ⟨r.state, r.out, true⟩
      else
        let rest := posixRun cnt silent r.state ws
        ⟨rest.state, r.out ++ rest.out, rest.done⟩

/-- Body of one fallback-mode iteration after `heartbeat_event.wait`
returns (lines 509-518): clear the event, re-check `stop_event` (break
without counting), else count the tick, print unless silent, and break
when the tick limit is reached. -/
def fallbackIter (cnt : Nat) (silent : Bool) (s : LoopState) (w : FallbackWake) : IterOut :=
  let f := fallbackApply w s.flags
  let f2 : Flags := { f with heartbeat_event := false }
  if f2.stop_event then ⟨⟨f2, s.heartbeat_count⟩, [], true⟩
  else
    let n := s.heartbeat_count + 1
    ⟨⟨f2, n⟩, (if silent then [] else [n]), decide (0 < cnt ∧ cnt ≤ n)⟩

/-- The fallback-mode `while not stop_event.is_set()` loop
(lines 508-518), run over a list of wake events used as fuel. -/
def fallbackRun (cnt : Nat) (silent : Bool) : LoopState → List FallbackWake → RunOut
  | s, [] => ⟨s, [], false⟩
  | s, w :: ws =>
    if s.flags.stop_event then ⟨s, [], true⟩
    else
      let r := fallbackIter cnt silent s w
      if r.brk then ⟨r.state, r.out, true⟩
      else
        let rest := fallbackRun cnt silent r.state ws
        ⟨rest.state, r.out ++ rest.out, rest.done⟩

/-- The consecutive heartbeat counts `start, start+1, ..., start+n-1`,
as printed by `n` consecutive counted ticks. -/
def tickSeq (start n : Nat) : List Nat :=
  match n with
  | 0 => []
  | n + 1 => start :: tickSeq (start + 1) n

/-- Running the POSIX loop from count `k` on `d` timer wakes, with tick
limit `k + d`, counts the ticks `k+1 .. k+d` and then breaks. -/
theorem posixRun_alarm_ticks (d : Nat) :
    ∀ (k cnt : Nat) (silent : Bool) (rest : List PosixWake), cnt = k + d → 0 < d →
    posixRun cnt silent ⟨⟨false, false⟩, k⟩ (List.replicate d PosixWake.alarm ++ rest)
      = ⟨⟨⟨false, false⟩, cnt⟩, (if silent then [] else tickSeq (k + 1) d), true⟩ := by
  induction d with
  | zero => intro k cnt silent rest _ h; exact absurd h (by decide)
  | succ d ih =>
    intro k cnt silent rest hcnt _
    cases d with
    | zero =>
      subst hcnt
      simp only [List.replicate_succ, List.replicate_zero, List.nil_append,
        List.cons_append, posixRun, posixIter, posixApply, alarm_handler]
      simp [tickSeq, Nat.lt_succ_iff]
    | succ d =>
      subst hcnt
      have hb : ¬ (0 < k + (d + 1 + 1) ∧ k + (d + 1 + 1) ≤ k + 1) := by omega
      rw [List.replicate_succ, List.cons_append]
      generalize hT : List.replicate (d + 1) PosixWake.alarm ++ rest = T
      have ih2 := ih (k + 1) (k + (d + 1 + 1)) silent rest (by omega) (by omega)
      rw [hT] at ih2
      simp [posixRun, posixIter, posixApply, alarm_handler, hb, ih2]
      cases silent <;> simp [tickSeq]

/-- Running the fallback loop from count `k` on `d` timeout wakes, with
tick limit `k + d`, counts the ticks `k+1 .. k+d` and then breaks. -/
theorem fallbackRun_timeout_ticks (d : Nat) :
    ∀ (k cnt : Nat) (silent : Bool) (rest : List FallbackWake), cnt = k + d → 0 < d →
    fallbackRun cnt silent ⟨⟨false, false⟩, k⟩ (List.replicate d FallbackWake.timeout ++ rest)
      = ⟨⟨⟨false, false⟩, cnt⟩, (if silent then [] else tickSeq (k + 1) d), true⟩ := by
  induction d with
  | zero => intro k cnt silent rest _ h; exact absurd h (by decide)
  | succ d ih =>
    intro k cnt silent rest hcnt _
    cases d with
    | zero =>
      subst hcnt
      simp only [List.replicate_succ, List.replicate_zero, List.nil_append,
        List.cons_append, fallbackRun, fallbackIter, fallbackApply]
      simp [tickSeq, Nat.lt_succ_iff]
    | succ d =>
      subst hcnt
      have hb : ¬ (0 < k + (d + 1 + 1) ∧ k + (d + 1 + 1) ≤ k + 1) := by omega
      rw [List.replicate_succ, List.cons_append]
      generalize hT : List.replicate (d + 1) FallbackWake.timeout ++ rest = T
      have ih2 := ih (k + 1) (k + (d + 1 + 1)) silent rest (by omega) (by omega)
      rw [hT] at ih2
      simp [fallbackRun, fallbackIter, fallbackApply, hb, ih2]
      cases silent <;> simp [tickSeq]

/-- C1: with tick interval armed and tick limit `N > 0`, absent
cancellation, both the POSIX timer+pause loop and the Event.wait fallback
loop count exactly `N` ticks — the printed counts are `1..N` in order,
`heartbeat_count` ends at `N` — and then terminate by `break`, consuming
no further wake events (no `(N+1)`-th tick is counted or printed). -/
theorem heartbeat_exact_tick_count (N : Nat) (silent : Bool)
    (rest : List PosixWake) (frest : List FallbackWake) (hN : 0 < N) :
    posixRun N silent ⟨⟨false, false⟩, 0⟩ (List.replicate N PosixWake.alarm ++ rest)
      = ⟨⟨⟨false, false⟩, N⟩, (if silent then [] else tickSeq 1 N), true⟩ ∧
    fallbackRun N silent ⟨⟨false, false⟩, 0⟩ (List.replicate N FallbackWake.timeout ++ frest)
      = ⟨⟨⟨false, false⟩, N⟩, (if silent then [] else tickSeq 1 N), true⟩ := by
  constructor
  · exact posixRun_alarm_ticks N 0 N silent rest (by omega) hN
  · exact fallbackRun_timeout_ticks N 0 N silent frest (by omega) hN

/-- Witness for C1 at `N = 3`, non-silent: the printed counts are
`[1, 2, 3]` and the loop terminates. -/
theorem heartbeat_exact_tick_count_witness :
    0 < 3 ∧
    (posixRun 3 false ⟨⟨false, false⟩, 0⟩ (List.replicate 3 PosixWake.alarm ++ [])
       = ⟨⟨⟨false, false⟩, 3⟩, [1, 2, 3], true⟩ ∧
     fallbackRun 3 false ⟨⟨false, false⟩, 0⟩ (List.replicate 3 FallbackWake.timeout ++ [])
       = ⟨⟨⟨false, false⟩, 3⟩, [1, 2, 3], true⟩) :=
  ⟨by decide, heartbeat_exact_tick_count 3 false [] [] (by decide)⟩

/-- C2: (i) SIGINT and SIGTERM are bound to the identical handler, which
sets the stop flag and force-wakes the waiter by setting the heartbeat
event; (ii) in both waiting strategies one wake increments
`heartbeat_count` by at most one; (iii) once a termination signal ends
the wait, both loops exit at once without counting a further tick —
the final `heartbeat_count` equals the count before the wake and nothing
more is printed. -/
theorem cancellation_no_spurious_tick :
    (installedHandler Sig.sigint = installedHandler Sig.sigterm) ∧
    (∀ f : Flags, (sigterm_handler f).stop_event = true ∧
      (sigterm_handler f).heartbeat_event = true) ∧
    (∀ (cnt : Nat) (silent : Bool) (s : LoopState) (w : PosixWake),
      (posixIter cnt silent s w).state.heartbeat_count ≤ s.heartbeat_count + 1) ∧
    (∀ (cnt : Nat) (silent : Bool) (s : LoopState) (w : FallbackWake),
      (fallbackIter cnt silent s w).state.heartbeat_count ≤ s.heartbeat_count + 1) ∧
    (∀ (cnt : Nat) (silent : Bool) (s : LoopState) (es : List PosixWake),
      (posixRun cnt silent s (PosixWake.term :: es)).state.heartbeat_count
          = s.heartbeat_count ∧
      (posixRun cnt silent s (PosixWake.term :: es)).out = [] ∧
      (posixRun cnt silent s (PosixWake.term :: es)).done = true) ∧
    (∀ (cnt : Nat) (silent : Bool) (s : LoopState) (es : List FallbackWake),
      (fallbackRun cnt silent s (FallbackWake.term :: es)).state.heartbeat_count
          = s.heartbeat_count ∧
      (fallbackRun cnt silent s (FallbackWake.term :: es)).out = [] ∧
      (fallbackRun cnt silent s (FallbackWake.term :: es)).done = true) := by
  refine ⟨rfl, fun f => ⟨rfl, rfl⟩, ?_, ?_, ?_, ?_⟩
  · intro cnt silent s w
    cases w <;>
      simp only [posixIter, posixApply, alarm_handler, sigterm_handler] <;>
      split_ifs <;> simp
  · intro cnt silent s w
    cases w <;>
      simp only [fallbackIter, fallbackApply, sigterm_handler] <;>
      split_ifs <;> simp
  · intro cnt silent s es
    by_cases h : s.flags.stop_event = true <;>
      simp [posixRun, posixIter, posixApply, sigterm_handler, h]
  · intro cnt silent s es
    by_cases h : s.flags.stop_event = true <;>
      simp [fallbackRun, fallbackIter, fallbackApply, sigterm_handler, h]

/-- A spawned child process, recorded by the argument vector passed to
`subprocess.Popen` (or the shell command string when `shell=True`). -/
inductive Proc where
  | argv (args : List String)
  | shell (cmd : String)
deriving DecidableEq

/-- The `AudioPlayer` object (lines 107-142): instance fields exactly as
assigned in `__init__`. `pygame : Bool` stands for `self.pygame` being
the imported module rather than `None`; `_thread : Option Unit` stands
for the worker `Thread` handle. -/
structure AudioPlayer where
  path : String
  loop : Bool
  backend : Option String
  proc : Option Proc
  _thread : Option Unit
  _use_pygame : Bool
  pygame : Bool
deriving DecidableEq

/-- Host facts queried by `AudioPlayer.__init__` (lines 118-142):
whether `import pygame; pygame.mixer.init()` succeeds, which CLI player
binaries `shutil.which` finds, the platform, and which opener binaries
exist. -/
structure CEnv where
  pygameInitOk : Bool
  whichMpg123 : Bool
  whichMpv : Bool
  whichFfplay : Bool
  whichAfplay : Bool
  isWindows : Bool
  whichXdgOpen : Bool
  whichOpen : Bool
deriving DecidableEq

/-- The `for cmd in ("mpg123", "mpv", "ffplay", "afplay")` probe loop
(lines 129-132): the first binary `shutil.which` finds. -/
def firstCli (e : CEnv) : Option String :=
  if e.whichMpg123 then some "mpg123"
  else if e.whichMpv then some "mpv"
  else if e.whichFfplay then some "ffplay"
  else if e.whichAfplay then some "afplay"
  else none

/-- `AudioPlayer.__init__` (lines 108-142): tries pygame first; if the
mixer does not initialise, takes the first present CLI player; failing
that, the platform file-opener (`start` on Windows, else `xdg-open`,
else `open`); else `backend` stays `None`. -/
def AudioPlayer.init (e : CEnv) (path : String) (loop : Bool) : AudioPlayer :=
  let base : AudioPlayer :=
    { path := path, loop := loop, backend := none, proc := none,
      _thread := none, _use_pygame := false, pygame := false }
  if e.pygameInitOk then
    { base with pygame := true, _use_pygame := true, backend := some "pygame" }
  else
    match firstCli e with
    | some c => { base with backend := some c }
    | none =>
      if e.isWindows then { base with backend := some "start" }
      else if e.whichXdgOpen then { base with backend := some "xdg-open" }
      else if e.whichOpen then { base with backend := some "open" }
      else base

/-- Play-time environment: whether `Path(self.path).is_file()` holds and
whether each fallible step of `play` (lines 144-245) raises. -/
structure PEnv where
  fileExists : Bool
  pygamePlayOk : Bool
  cliSpawnOk : Bool
  openerSpawnOk : Bool
  playsoundOk : Bool
deriving DecidableEq

/-- One backend attempt actually made during a `play` call. -/
inductive Attempt where
  | pygame
  | cli
  | opener
  | playsound
deriving DecidableEq

/-- Whether an attempt of that kind succeeds under `e` (does not raise). -/
def attemptOk (e : PEnv) : Attempt → Bool
  | Attempt.pygame => e.pygamePlayOk
  | Attempt.cli => e.cliSpawnOk
  | Attempt.opener => e.openerSpawnOk
  | Attempt.playsound => e.playsoundOk

/-- Result of a `play` call: the returned boolean, the backend attempts
made (in order), and the object state afterwards. -/
structure PlayResult where
  ok : Bool
  attempts : List Attempt
  state : AudioPlayer
deriving DecidableEq

/-- The CLI players probed by `__init__` (line 129). -/
def cliNames : List String := ["mpg123", "mpv", "ffplay", "afplay"]

/-- The OS file-openers (line 206). -/
def openerNames : List String := ["xdg-open", "open", "start"]

/-- Argument vector built for an external CLI player (lines 165-197):
ffplay gets `-nodisp -autoexit -loglevel quiet` (loop replaces
`-autoexit` by `-loop 0`); mpv gets `--no-terminal --really-quiet`
(plus `--loop-file=inf` when looping); mpg123 and afplay get just the
path, except that mpg123 with loop gets `-z -q` (best-effort, no native
loop). -/
def cliArgs (backend : String) (loop : Bool) (path : String) : List String :=
  if backend = "ffplay" then
    if loop then [backend, "-nodisp", "-loop", "0", "-loglevel", "quiet", path]
    else [backend, "-nodisp", "-autoexit", "-loglevel", "quiet", path]
  else if backend = "mpv" then
    ([backend, "--no-terminal", "--really-quiet"]
      ++ (if loop then ["--loop-file=inf"] else [])) ++ [path]
  else
    if loop && backend = "mpg123" then [backend, "-z", "-q", path]
    else [backend, path]

/-- The playsound fallback block of `play` (lines 222-242): import
playsound, spawn the daemon worker thread, and set
`self.backend = "playsound-thread"`; any exception is swallowed and
`play` falls through to `return False`. -/
def playPlaysoundStage (e : PEnv) (s : AudioPlayer) (acc : List Attempt) : PlayResult :=
  if e.playsoundOk then
    ⟨true, acc ++ [Attempt.playsound],
      { s with _thread := some (), backend := some "playsound-thread" }⟩
  else ⟨false, acc ++ [Attempt.playsound], s⟩

/-- The OS-opener block of `play` (lines 206-219): guarded by
`self.backend in ("xdg-open", "open", "start")`; on a spawn exception it
falls through to the playsound block. -/
def playOpenerStage (e : PEnv) (s : AudioPlayer) (acc : List Attempt) : PlayResult :=
  match s.backend with
  | some b =>
    if b ∈ openerNames then
      if e.openerSpawnOk then
        ⟨true, acc ++ [Attempt.opener],
          { s with proc := some (if b = "start" then
              Proc.shell ("start \"\" \"" ++ s.path ++ "\"")
            else Proc.argv [b, s.path]) }⟩
      else playPlaysoundStage e s (acc ++ [Attempt.opener])
    else playPlaysoundStage e s acc
  | none => playPlaysoundStage e s acc

/-- The CLI-player block of `play` (lines 163-204): guarded by
`self.backend in ("mpg123", "mpv", "ffplay", "afplay")`; on success it
stores the `Popen` handle in `self.proc`; on a spawn exception it falls
through to the next block. -/
def playCliStage (e : PEnv) (s : AudioPlayer) (acc : List Attempt) : PlayResult :=
  match s.backend with
  | some b =>
    if b ∈ cliNames then
      if e.cliSpawnOk then
        ⟨true, acc ++ [Attempt.cli],
          { s with proc := some (Proc.argv (cliArgs b s.loop s.path)) }⟩
      else playOpenerStage e s (acc ++ [Attempt.cli])
    else playOpenerStage e s acc
  | none => playOpenerStage e s acc

/-- The pygame block of `play` (lines 152-161): guarded by
`self._use_pygame and self.pygame`; on success it returns `True` without
touching `proc` or `_thread`; on an exception it falls through. -/
def playPygameStage (e : PEnv) (s : AudioPlayer) (acc : List Attempt) : PlayResult :=
  if s._use_pygame && s.pygame then
    if e.pygamePlayOk then ⟨true, acc ++ [Attempt.pygame], s⟩
    else playCliStage e s (acc ++ [Attempt.pygame])
  else playCliStage e s acc

/-- `AudioPlayer.play` (lines 144-245): returns `False` at once when
`Path(self.path).is_file()` fails, otherwise runs the block sequence. -/
def AudioPlayer.play (e : PEnv) (s : AudioPlayer) : PlayResult :=
  if e.fileExists then playPygameStage e s [] else ⟨false, [], s⟩

/-- Stop-time environment: whether each fallible external call inside
`stop` (lines 247-277) raises, and whether the worker thread is still
alive when `stop` runs. -/
structure SEnv where
  pygameMusicStopOk : Bool
  pygameQuitOk : Bool
  termWaitOk : Bool
  killOk : Bool
  threadAlive : Bool
deriving DecidableEq

/-- One externally visible step taken by `stop`.
`procTerminateWait t` is `self.proc.terminate()` followed by
`self.proc.wait(timeout=t)`. -/
inductive StopAction where
  | pygameMusicStop
  | pygameQuit
  | procTerminateWait (timeoutSeconds : Nat)
  | procKill
  | threadNatural
deriving DecidableEq

/-- Result of a `stop` call: the returned boolean, the steps attempted
(in order), the object state afterwards, and the module-level
`stop_event` flag afterwards (`stop` never touches it). -/
structure StopResult where
  stopped : Bool
  acts : List StopAction
  state : AudioPlayer
  stop_event : Bool
deriving DecidableEq

/-- `AudioPlayer.stop` (lines 247-277): pygame branch (stop the music,
best-effort quit the mixer), then the process branch (terminate, wait up
to 1 second, on an exception try kill), then — only if nothing above
reported success — the live-worker-thread branch, which merely prints
and reports success. The method assigns no instance attribute and never
references the module-level `stop_event`. -/
def AudioPlayer.stop (e : SEnv) (ev : Bool) (s : AudioPlayer) : StopResult :=
  let r0 : Bool × List StopAction :=
    if s._use_pygame && s.pygame then
      if e.pygameMusicStopOk then (true, [StopAction.pygameMusicStop, StopAction.pygameQuit])
      else (false, [StopAction.pygameMusicStop])
    else (false, [])
  let r1 : Bool × List StopAction :=
    if s.proc.isSome then
      if e.termWaitOk then (true, r0.2 ++ [StopAction.procTerminateWait 1])
      else if e.killOk then
        (true, r0.2 ++ [StopAction.procTerminateWait 1, StopAction.procKill])
      else (r0.1, r0.2 ++ [StopAction.procTerminateWait 1, StopAction.procKill])
    else r0
  let r2 : Bool × List StopAction :=
    if !r1.1 && s._thread.isSome && e.threadAlive then
      (true, r1.2 ++ [StopAction.threadNatural])
    else r1
  ⟨r2.1, r2.2, s, ev⟩

/-- An external call that raises unless `ok` holds. -/
def opE (ok : Bool) : Except Unit Unit :=
  if ok then Except.ok () else Except.error ()

/-- `try x except Exception: h` — run `x`; on an exception run `h`. -/
def tryE (x : Except Unit α) (h : Except Unit α) : Except Unit α :=
  match x with
  | Except.ok a => Except.ok a
  | Except.error _ => h

/-- `stop` with the original `try/except` structure made explicit in the
`Except` monad, so that every exception path is visible: the pygame
branch (outer `try` with the inner best-effort `quit`), the process
branch (`terminate`+`wait(timeout=1)`, whose handler tries `kill` inside
its own `try`), and the thread branch. An uncaught exception would
surface as `Except.error`. -/
def stopE (e : SEnv) (ev : Bool) (s : AudioPlayer) : Except Unit StopResult := do
  let r0 : Bool × List StopAction ←
    if s._use_pygame && s.pygame then
      tryE
        (do
          let _ ← opE e.pygameMusicStopOk
          let _ ← tryE (opE e.pygameQuitOk) (Except.ok ())
          Except.ok (true, [StopAction.pygameMusicStop, StopAction.pygameQuit]))
        (Except.ok (false, [StopAction.pygameMusicStop]))
    else Except.ok (false, [])
  let r1 : Bool × List StopAction ←
    if s.proc.isSome then
      tryE
        (do
          let _ ← opE e.termWaitOk
          Except.ok (true, r0.2 ++ [StopAction.procTerminateWait 1]))
        (tryE
          (do
            let _ ← opE e.killOk
            Except.ok (true, r0.2 ++ [StopAction.procTerminateWait 1, StopAction.procKill]))
          (Except.ok (r0.1, r0.2 ++ [StopAction.procTerminateWait 1, StopAction.procKill])))
    else Except.ok r0
  let r2 : Bool × List StopAction :=
    if !r1.1 && s._thread.isSome && e.threadAlive then
      (true, r1.2 ++ [StopAction.threadNatural])
    else r1
  Except.ok ⟨r2.1, r2.2, s, ev⟩

theorem playPlaysound_any (e : PEnv) (s : AudioPlayer) (acc : List Attempt)
    (hacc : acc.any (attemptOk e) = false) :
    (playPlaysoundStage e s acc).ok
      = (playPlaysoundStage e s acc).attempts.any (attemptOk e) := by
  by_cases h : e.playsoundOk <;> simp [playPlaysoundStage, h, hacc, attemptOk]

theorem playOpener_any (e : PEnv) (s : AudioPlayer) (acc : List Attempt)
    (hacc : acc.any (attemptOk e) = false) :
    (playOpenerStage e s acc).ok
      = (playOpenerStage e s acc).attempts.any (attemptOk e) := by
  unfold playOpenerStage
  cases hb : s.backend with
  | none => exact playPlaysound_any e s acc hacc
  | some b =>
    by_cases hm : b ∈ openerNames
    · by_cases ho : e.openerSpawnOk
      · simp [hm, ho, hacc, attemptOk]
      · have hacc2 : (acc ++ [Attempt.opener]).any (attemptOk e) = false := by
          simp [hacc, attemptOk, ho]
        simpa [hm, ho] using playPlaysound_any e s (acc ++ [Attempt.opener]) hacc2
    · simp only [if_neg hm]
      exact playPlaysound_any e s acc hacc

theorem playCli_any (e : PEnv) (s : AudioPlayer) (acc : List Attempt)
    (hacc : acc.any (attemptOk e) = false) :
    (playCliStage e s acc).ok
      = (playCliStage e s acc).attempts.any (attemptOk e) := by
  unfold playCliStage
  cases hb : s.backend with
  | none => exact playOpener_any e s acc hacc
  | some b =>
    by_cases hm : b ∈ cliNames
    · by_cases hc : e.cliSpawnOk
      · simp [hm, hc, hacc, attemptOk]
      · have hacc2 : (acc ++ [Attempt.cli]).any (attemptOk e) = false := by
          simp [hacc, attemptOk, hc]
        simpa [hm, hc] using playOpener_any e s (acc ++ [Attempt.cli]) hacc2
    · simp only [if_neg hm]
      exact playOpener_any e s acc hacc

theorem playPygame_any (e : PEnv) (s : AudioPlayer) (acc : List Attempt)
    (hacc : acc.any (attemptOk e) = false) :
    (playPygameStage e s acc).ok
      = (playPygameStage e s acc).attempts.any (attemptOk e) := by
  unfold playPygameStage
  by_cases hu : s._use_pygame && s.pygame
  · by_cases hp : e.pygamePlayOk
    · simp [hu, hp, hacc, attemptOk]
    · have hacc2 : (acc ++ [Attempt.pygame]).any (attemptOk e) = false := by
        simp [hacc, attemptOk, hp]
      simpa [hu, hp] using playCli_any e s (acc ++ [Attempt.pygame]) hacc2
  · simp only [if_neg hu]
    exact playCli_any e s acc hacc

/-- C3 counterexample: pygame is selected at construction and its play
attempt raises while mpg123 is present on the host and would spawn fine;
`play` nonetheless never attempts a CLI player (or the opener) — it falls
straight through to the playsound fallback, and with playsound also
failing returns `False` even though the next candidate in priority order
was usable. -/
theorem play_skips_cli_on_pygame_failure :
    (AudioPlayer.play ⟨true, false, true, true, false⟩
        (AudioPlayer.init ⟨true, true, false, false, false, false, false, false⟩
          "song.mp3" false)).ok = false ∧
    (AudioPlayer.play ⟨true, false, true, true, false⟩
        (AudioPlayer.init ⟨true, true, false, false, false, false, false, false⟩
          "song.mp3" false)).attempts = [Attempt.pygame, Attempt.playsound] :=
  ⟨rfl, rfl⟩

/-- C3 (amended): the backend is selected once, at construction, in the
fixed priority order (pygame mixer; else the first present of mpg123,
mpv, ffplay, afplay; else the platform opener; else none). A `play` call
attempts only that selected backend and, when the attempt raises, falls
through directly to the playsound background-thread fallback — skipping
the intermediate candidates — and it returns `False` exactly when every
attempt it actually makes raises. -/
theorem play_priority_selection_and_fallthrough :
    (∀ (e : CEnv) (p : String) (l : Bool),
      (AudioPlayer.init { e with pygameInitOk := true } p l).backend = some "pygame") ∧
    (∀ (e : CEnv) (p : String) (l : Bool),
      (AudioPlayer.init { e with pygameInitOk := false, whichMpg123 := true } p l).backend
        = some "mpg123") ∧
    (∀ (e : CEnv) (p : String) (l : Bool),
      (AudioPlayer.init
        { e with pygameInitOk := false, whichMpg123 := false, whichMpv := true } p l).backend
        = some "mpv") ∧
    (∀ (e : CEnv) (p : String) (l : Bool),
      (AudioPlayer.init
        { e with pygameInitOk := false, whichMpg123 := false, whichMpv := false,
                 whichFfplay := true } p l).backend = some "ffplay") ∧
    (∀ (e : CEnv) (p : String) (l : Bool),
      (AudioPlayer.init
        { e with pygameInitOk := false, whichMpg123 := false, whichMpv := false,
                 whichFfplay := false, whichAfplay := true } p l).backend = some "afplay") ∧
    (∀ (e : CEnv) (p : String) (l : Bool),
      (AudioPlayer.init
        { e with pygameInitOk := false, whichMpg123 := false, whichMpv := false,
                 whichFfplay := false, whichAfplay := false, isWindows := true } p l).backend
        = some "start") ∧
    (∀ (e : CEnv) (p : String) (l : Bool),
      (AudioPlayer.init
        { e with pygameInitOk := false, whichMpg123 := false, whichMpv := false,
                 whichFfplay := false, whichAfplay := false, isWindows := false,
                 whichXdgOpen := true } p l).backend = some "xdg-open") ∧
    (∀ (p : String) (l : Bool),
      (AudioPlayer.init ⟨false, false, false, false, false, false, false, true⟩ p l).backend
        = some "open") ∧
    (∀ (p : String) (l : Bool),
      (AudioPlayer.init ⟨false, false, false, false, false, false, false, false⟩ p l).backend
        = none) ∧
    (∀ (e : PEnv) (s : AudioPlayer),
      (AudioPlayer.play e s).ok = (AudioPlayer.play e s).attempts.any (attemptOk e)) ∧
    (∀ (ce : CEnv) (pe : PEnv) (p : String) (l : Bool),
      (AudioPlayer.play { pe with fileExists := true, pygamePlayOk := false }
          (AudioPlayer.init { ce with pygameInitOk := true } p l)).attempts
        = [Attempt.pygame, Attempt.playsound]) ∧
    (∀ (ce : CEnv) (pe : PEnv) (p : String) (l : Bool),
      (AudioPlayer.play { pe with fileExists := true, cliSpawnOk := false }
          (AudioPlayer.init { ce with pygameInitOk := false, whichMpg123 := true } p l)).attempts
        = [Attempt.cli, Attempt.playsound]) := by
  refine ⟨?_, ?_, ?_, ?_, ?_, ?_, ?_, ?_, ?_, ?_, ?_, ?_⟩
  · intro e p l; simp [AudioPlayer.init]
  · intro e p l; simp [AudioPlayer.init, firstCli]
  · intro e p l; simp [AudioPlayer.init, firstCli]
  · intro e p l; simp [AudioPlayer.init, firstCli]
  · intro e p l; simp [AudioPlayer.init, firstCli]
  · intro e p l; simp [AudioPlayer.init, firstCli]
  · intro e p l; simp [AudioPlayer.init, firstCli]
  · intro p l; rfl
  · intro p l; rfl
  · intro e s
    unfold AudioPlayer.play
    by_cases hf : e.fileExists
    · simp only [hf, if_true]
      exact playPygame_any e s [] (by simp)
    · simp [hf]
  · intro ce pe p l
    simp [AudioPlayer.init, AudioPlayer.play, playPygameStage, playCliStage,
      playOpenerStage, playPlaysoundStage, cliNames, openerNames]
    by_cases hps : pe.playsoundOk <;> simp [hps]
  · intro ce pe p l
    simp [AudioPlayer.init, firstCli, AudioPlayer.play, playPygameStage, playCliStage,
      playOpenerStage, playPlaysoundStage, cliNames, openerNames]
    by_cases hps : pe.playsoundOk <;> simp [hps]

/-- C4: `stop()` never raises (its exception-explicit translation always
returns `Except.ok`, equal to the pure translation); calling it twice in
a row returns the same boolean both times (the first call leaves the
object unchanged, so the second call repeats it); and on a session whose
`play` was never invoked or spawned nothing (no process, no thread) the
returned boolean is the well-defined value
`_use_pygame && pygame && pygameMusicStopOk`. -/
theorem stop_total_and_idempotent :
    (∀ (e : SEnv) (ev : Bool) (s : AudioPlayer),
      stopE e ev s = Except.ok (AudioPlayer.stop e ev s)) ∧
    (∀ (e : SEnv) (ev : Bool) (s : AudioPlayer),
      (AudioPlayer.stop e ev ((AudioPlayer.stop e ev s).state)).stopped
        = (AudioPlayer.stop e ev s).stopped) ∧
    (∀ (e : SEnv) (ev : Bool) (s : AudioPlayer),
      (AudioPlayer.stop e ev { s with proc := none, _thread := none }).stopped
        = (s._use_pygame && s.pygame && e.pygameMusicStopOk)) := by
  refine ⟨?_, fun e ev s => rfl, ?_⟩
  · intro e ev s
    rcases s with ⟨p, l, b, pr, th, up, pg⟩
    rcases e with ⟨a1, a2, a3, a4, a5⟩
    cases a1 <;> cases a2 <;> cases a3 <;> cases a4 <;> cases a5 <;>
      cases up <;> cases pg <;> cases pr <;> cases th <;> rfl
  · intro e ev s
    rcases s with ⟨p, l, b, pr, th, up, pg⟩
    cases up <;> cases pg <;> cases hm : e.pygameMusicStopOk <;>
      simp [AudioPlayer.stop, hm]

/-- C5: when the resource path is not an existing file, `play` returns
`False` with no side effect: no attempt is made, the object is returned
unchanged, and for a freshly constructed player `proc` and `_thread`
remain `None`. -/
theorem play_missing_file_no_side_effect :
    (∀ (e : PEnv) (s : AudioPlayer),
      AudioPlayer.play { e with fileExists := false } s = ⟨false, [], s⟩) ∧
    (∀ (e : PEnv) (s : AudioPlayer),
      (AudioPlayer.play { e with fileExists := false } s).state.proc = s.proc ∧
      (AudioPlayer.play { e with fileExists := false } s).state._thread = s._thread) ∧
    (∀ (e : PEnv) (ce : CEnv) (p : String) (l : Bool),
      (AudioPlayer.play { e with fileExists := false }
          (AudioPlayer.init ce p l)).state.proc = none ∧
      (AudioPlayer.play { e with fileExists := false }
          (AudioPlayer.init ce p l)).state._thread = none) := by
  refine ⟨fun e s => rfl, fun e s => ⟨rfl, rfl⟩, ?_⟩
  intro e ce p l
  rcases ce with ⟨c1, c2, c3, c4, c5, c6, c7, c8⟩
  cases c1 <;> cases c2 <;> cases c3 <;> cases c4 <;> cases c5 <;>
    cases c6 <;> cases c7 <;> cases c8 <;> exact ⟨rfl, rfl⟩

/-- C6: for a session driving an external CLI player (pygame off, a
spawned child process held in `proc`), `stop` performs
`terminate()` + `wait(timeout=1)`, issues `kill()` exactly when that
step raises (in particular when the process is still running when the
1-second wait expires), and returns `True` iff the terminate-and-wait
step or the kill step succeeds. -/
theorem stop_cli_escalation :
    ∀ (e : SEnv) (ev : Bool) (s : AudioPlayer) (pr : Proc),
      (AudioPlayer.stop e ev
          { s with _use_pygame := false, proc := some pr, _thread := none }).acts
        = [StopAction.procTerminateWait 1]
            ++ (if e.termWaitOk then [] else [StopAction.procKill]) ∧
      (AudioPlayer.stop e ev
          { s with _use_pygame := false, proc := some pr, _thread := none }).stopped
        = (e.termWaitOk || e.killOk) := by
  intro e ev s pr
  cases ht : e.termWaitOk <;> cases hk : e.killOk <;>
    simp [AudioPlayer.stop, ht, hk]

/-- C7 counterexample: a playsound-thread session whose worker thread has
already finished. `stop()` returns `False` — not `True` regardless of
the worker state — performs no step at all, and leaves the module
`stop_event` flag unchanged (it never sets the cancellation signal). -/
theorem stop_playsound_dead_thread :
    (AudioPlayer.stop ⟨true, true, true, true, false⟩ false
        ⟨"song.mp3", true, some "playsound-thread", none, some (), false, false⟩).stopped
      = false ∧
    (AudioPlayer.stop ⟨true, true, true, true, false⟩ false
        ⟨"song.mp3", true, some "playsound-thread", none, some (), false, false⟩).stop_event
      = false ∧
    (AudioPlayer.stop ⟨true, true, true, true, false⟩ false
        ⟨"song.mp3", true, some "playsound-thread", none, some (), false, false⟩).acts
      = [] :=
  ⟨rfl, rfl, rfl⟩

/-- C7 (amended): for a session playing via the background-thread
playsound fallback (pygame off, no child process, a worker thread
handle), `stop` cannot interrupt the worker and does not set the
cancellation signal; it returns `True` exactly when the worker thread is
still alive — merely acknowledging that the thread will finish its
playback naturally — and `False` once the thread has finished. -/
theorem stop_playsound_acknowledges_only :
    ∀ (e : SEnv) (ev : Bool) (s : AudioPlayer),
      (AudioPlayer.stop e ev
          { s with _use_pygame := false, proc := none, _thread := some () }).stopped
        = e.threadAlive ∧
      (AudioPlayer.stop e ev
          { s with _use_pygame := false, proc := none, _thread := some () }).stop_event
        = ev ∧
      (AudioPlayer.stop e ev
          { s with _use_pygame := false, proc := none, _thread := some () }).acts
        = (if e.threadAlive then [StopAction.threadNatural] else []) := by
  intro e ev s
  cases ha : e.threadAlive <;> simp [AudioPlayer.stop, ha]

theorem playPlaysound_backend (e : PEnv) (s : AudioPlayer) (acc : List Attempt) :
    (playPlaysoundStage e s acc).state.backend
      = (if Attempt.playsound ∈ (playPlaysoundStage e s acc).attempts ∧ e.playsoundOk = true
         then some "playsound-thread" else s.backend) := by
  by_cases h : e.playsoundOk <;> simp [playPlaysoundStage, h]

theorem playOpener_backend (e : PEnv) (s : AudioPlayer) (acc : List Attempt)
    (hacc : Attempt.playsound ∉ acc) :
    (playOpenerStage e s acc).state.backend
      = (if Attempt.playsound ∈ (playOpenerStage e s acc).attempts ∧ e.playsoundOk = true
         then some "playsound-thread" else s.backend) := by
  unfold playOpenerStage
  cases hb : s.backend with
  | none => simpa [hb] using playPlaysound_backend e s acc
  | some b =>
    by_cases hm : b ∈ openerNames
    · by_cases ho : e.openerSpawnOk
      · simp [hm, ho, hb, hacc]
      · simpa [hm, ho, hb] using playPlaysound_backend e s (acc ++ [Attempt.opener])
    · simpa [hm, hb] using playPlaysound_backend e s acc

theorem playCli_backend (e : PEnv) (s : AudioPlayer) (acc : List Attempt)
    (hacc : Attempt.playsound ∉ acc) :
    (playCliStage e s acc).state.backend
      = (if Attempt.playsound ∈ (playCliStage e s acc).attempts ∧ e.playsoundOk = true
         then some "playsound-thread" else s.backend) := by
  unfold playCliStage
  cases hb : s.backend with
  | none => simpa [hb] using playOpener_backend e s acc hacc
  | some b =>
    by_cases hm : b ∈ cliNames
    · by_cases hc : e.cliSpawnOk
      · simp [hm, hc, hb, hacc]
      · have hacc2 : Attempt.playsound ∉ acc ++ [Attempt.cli] := by simp [hacc]
        simpa [hm, hc, hb] using playOpener_backend e s (acc ++ [Attempt.cli]) hacc2
    · simpa [hm, hb] using playOpener_backend e s acc hacc

theorem playPygame_backend (e : PEnv) (s : AudioPlayer) (acc : List Attempt)
    (hacc : Attempt.playsound ∉ acc) :
    (playPygameStage e s acc).state.backend
      = (if Attempt.playsound ∈ (playPygameStage e s acc).attempts ∧ e.playsoundOk = true
         then some "playsound-thread" else s.backend) := by
  unfold playPygameStage
  by_cases hu : s._use_pygame && s.pygame
  · by_cases hp : e.pygamePlayOk
    · simp [hu, hp, hacc]
    · have hacc2 : Attempt.playsound ∉ acc ++ [Attempt.pygame] := by simp [hacc]
      simpa [hu, hp] using playCli_backend e s (acc ++ [Attempt.pygame]) hacc2
  · simp only [if_neg hu]
    exact playCli_backend e s acc hacc

/-- C8 counterexample: a player constructed on a host with no backend at
all has `backend = None`; a successful `play` call then mutates the
field to `"playsound-thread"` — the backend chosen at construction is
not immutable under `play`. -/
theorem play_mutates_backend :
    (AudioPlayer.init ⟨false, false, false, false, false, false, false, false⟩
        "song.mp3" false).backend = none ∧
    (AudioPlayer.play ⟨true, true, true, true, true⟩
        (AudioPlayer.init ⟨false, false, false, false, false, false, false, false⟩
          "song.mp3" false)).state.backend = some "playsound-thread" :=
  ⟨rfl, rfl⟩

/-- C8 (amended): after construction, `stop` never changes the `backend`
field, and `play` changes it exactly when the playsound background-thread
fallback is the attempt that starts playback (the playsound attempt is
reached and succeeds): then `backend` is reassigned to
`"playsound-thread"`; in every other case — earlier attempt succeeded,
playsound attempt raised, or missing file — it is left exactly as chosen
at construction. -/
theorem backend_immutable_except_playsound :
    ∀ (e : PEnv) (se : SEnv) (ev : Bool) (s : AudioPlayer),
      (AudioPlayer.play e s).state.backend
        = (if Attempt.playsound ∈ (AudioPlayer.play e s).attempts ∧ e.playsoundOk = true
           then some "playsound-thread" else s.backend) ∧
      (AudioPlayer.stop se ev s).state.backend = s.backend := by
  intro e se ev s
  refine ⟨?_, rfl⟩
  unfold AudioPlayer.play
  by_cases hf : e.fileExists
  · simp only [hf, if_true]
    exact playPygame_backend e s [] (by simp)
  · simp [hf]

/-- C9 counterexample: mpg123 has no native loop support, yet requesting
loop does change the argument shape — `-z -q` is inserted — instead of
leaving the flag unhonored with the same argument vector. -/
theorem mpg123_loop_changes_args :
    cliArgs "mpg123" true "song.mp3" = ["mpg123", "-z", "-q", "song.mp3"] ∧
    cliArgs "mpg123" true "song.mp3" ≠ cliArgs "mpg123" false "song.mp3" :=
  ⟨rfl, by decide⟩

/-- C9 (amended): each external CLI backend is invoked with the file path
plus its fixed flags — ffplay with `-nodisp -autoexit -loglevel quiet`
(loop replaces `-autoexit` by the native `-loop 0`), mpv with
`--no-terminal --really-quiet` (loop adds the native `--loop-file=inf`),
afplay with no flags (its loop request is left unhonored, argument shape
unchanged) — except that mpg123, which has no native loop support, gets
the extra best-effort flags `-z -q` when loop is requested instead of an
unchanged argument vector; and a `play` call through a CLI backend
spawns exactly that argument vector. -/
theorem cli_argument_shape :
    (∀ (p : String),
      cliArgs "ffplay" false p
          = ["ffplay", "-nodisp", "-autoexit", "-loglevel", "quiet", p] ∧
      cliArgs "ffplay" true p
          = ["ffplay", "-nodisp", "-loop", "0", "-loglevel", "quiet", p] ∧
      cliArgs "mpv" false p = ["mpv", "--no-terminal", "--really-quiet", p] ∧
      cliArgs "mpv" true p
          = ["mpv", "--no-terminal", "--really-quiet", "--loop-file=inf", p] ∧
      cliArgs "afplay" false p = ["afplay", p] ∧
      cliArgs "afplay" true p = ["afplay", p] ∧
      cliArgs "mpg123" false p = ["mpg123", p] ∧
      cliArgs "mpg123" true p = ["mpg123", "-z", "-q", p]) ∧
    (∀ (ce : CEnv) (pe : PEnv) (p : String) (l : Bool),
      (AudioPlayer.play { pe with fileExists := true, cliSpawnOk := true }
          (AudioPlayer.init { ce with pygameInitOk := false, whichMpg123 := true } p l)).state.proc
        = some (Proc.argv (cliArgs "mpg123" l p))) ∧
    (∀ (ce : CEnv) (pe : PEnv) (p : String) (l : Bool),
      (AudioPlayer.play { pe with fileExists := true, cliSpawnOk := true }
          (AudioPlayer.init
            { ce with pygameInitOk := false, whichMpg123 := false, whichMpv := false,
                      whichFfplay := true } p l)).state.proc
        = some (Proc.argv (cliArgs "ffplay" l p))) := by
  refine ⟨fun p => ⟨rfl, rfl, rfl, rfl, rfl, rfl, rfl, rfl⟩, ?_, ?_⟩
  · intro ce pe p l
    simp [AudioPlayer.init, firstCli, AudioPlayer.play, playPygameStage,
      playCliStage, cliNames]
  · intro ce pe p l
    simp [AudioPlayer.init, firstCli, AudioPlayer.play, playPygameStage,
      playCliStage, cliNames]

/-- C10: `stop` assigns no instance attribute: the object — in
particular `proc`, `_thread`, `_use_pygame` and `pygame` — is exactly
the same after the call, so a repeated `stop` performs the same steps
again; with a process handle present, the second call re-sends
`terminate()` (and the 1-second wait) to the already-terminated child. -/
theorem stop_leaves_handles_unchanged :
    ∀ (e : SEnv) (ev : Bool) (s : AudioPlayer) (pr : Proc),
      (AudioPlayer.stop e ev s).state = s ∧
      (AudioPlayer.stop e ev ((AudioPlayer.stop e ev s).state)).acts
        = (AudioPlayer.stop e ev s).acts ∧
      StopAction.procTerminateWait 1 ∈
        (AudioPlayer.stop e ev
          ((AudioPlayer.stop e ev { s with proc := some pr }).state)).acts := by
  intro e ev s pr
  refine ⟨rfl, rfl, ?_⟩
  rcases s with ⟨p, l, b, pr0, th, up, pg⟩
  cases up <;> cases pg <;> cases hm : e.pygameMusicStopOk <;>
    cases ht : e.termWaitOk <;> cases hk : e.killOk <;> cases ha : e.threadAlive <;>
    cases th <;> simp [AudioPlayer.stop, hm, ht, hk, ha]

end LightRunner
